import Mathlib

/-
Shallow embedding of src/code/main.py (single-file pygame space shooter).

Modelling conventions:
* pygame `Rect` coordinates are C integers; assigning a Python float to a
  rect attribute truncates toward zero (`trunc` below).
* Python float arithmetic is idealized over the real numbers.
* `pygame.time.get_ticks()` values are natural numbers of milliseconds
  (`now`); they are monotone, so Python integer subtraction agrees with
  `Nat` subtraction at every use site.
* Sprite groups preserve insertion order (CPython dicts), so they are
  modelled as lists; `spritecollide(s, group, dokill)` filters the list.
* Randomness (`randint` / `uniform`) is modelled as adversarial input:
  the random draws arrive as payloads of the event that consumes them.
* Asset surfaces (sizes / masks / rotated meteor frames) are external
  inputs and enter as parameters (`Assets`).
-/

namespace SpaceShooter

/-- Window width in pixels (main.py line 9). -/
def WINDOW_WIDTH : ℤ := 1280

/-- Window height in pixels (main.py line 9). -/
def WINDOW_HEIGHT : ℤ := 720

/-- Win threshold in score units (main.py line 25). -/
def SCORE_TO_WIN : ℕ := 300

/-- Meteor population cap (main.py line 335). -/
def MAX_METEORS : ℕ := 30

/-- Rotation cache quantization step in degrees (main.py line 54). -/
def ROT_STEP_DEG : ℤ := 5

/-- Game states (main.py lines 18-20). -/
inductive GState
  | playing
  | game_over
  | win
deriving DecidableEq, Repr

/-- Truncation toward zero, the conversion pygame applies when a Python
float is assigned to an integer `Rect` attribute. -/
noncomputable def trunc (x : ℝ) : ℤ :=
  if 0 ≤ x then ⌊x⌋ else ⌈x⌉

/-- pygame `Rect`: integer left/top corner and size. -/
structure Rect where
  left : ℤ
  top : ℤ
  w : ℤ
  h : ℤ
deriving DecidableEq, Repr

/-- Right edge of a rect. -/
def Rect.right (r : Rect) : ℤ := r.left + r.w

/-- Bottom edge of a rect. -/
def Rect.bottom (r : Rect) : ℤ := r.top + r.h

/-- Horizontal center, as pygame computes it (`x + w / 2` in C ints). -/
def Rect.centerx (r : Rect) : ℤ := r.left + r.w / 2

/-- Vertical center. -/
def Rect.centery (r : Rect) : ℤ := r.top + r.h / 2

/-- Assign `centerx` (pygame setter: `x = value - w / 2`). -/
def Rect.setCenterx (r : Rect) (v : ℤ) : Rect := { r with left := v - r.w / 2 }

/-- Assign `centery`. -/
def Rect.setCentery (r : Rect) (v : ℤ) : Rect := { r with top := v - r.h / 2 }

/-- `surface.get_rect(center=(cx, cy))` for a surface of size `w × h`. -/
def Rect.mkCenter (w h cx cy : ℤ) : Rect :=
  ⟨cx - w / 2, cy - h / 2, w, h⟩

/-- `surface.get_rect(midbottom=(cx, b))` for a surface of size `w × h`. -/
def Rect.mkMidbottom (w h cx b : ℤ) : Rect :=
  ⟨cx - w / 2, b - h, w, h⟩

/-- `rect.midtop` accessor: `(centerx, top)`. -/
def Rect.midtop (r : Rect) : ℤ × ℤ := (r.centerx, r.top)

/-- One axis of pygame's `Rect.clamp`: position `x` (size `w`) clamped
into the interval starting at `ax` of size `aw` (centered if too large). -/
def clampAxis (x w ax aw : ℤ) : ℤ :=
  if w ≥ aw then ax + aw / 2 - w / 2
  else if x < ax then ax
  else if x + w > ax + aw then ax + aw - w
  else x

/-- `rect.clamp_ip(area)` (main.py line 126 clamps into the window). -/
def Rect.clampIn (r a : Rect) : Rect :=
  { r with left := clampAxis r.left r.w a.left a.w,
           top := clampAxis r.top r.h a.top a.h }

/-- The window rect `pygame.Rect(0, 0, WINDOW_WIDTH, WINDOW_HEIGHT)`. -/
def screenRect : Rect := ⟨0, 0, WINDOW_WIDTH, WINDOW_HEIGHT⟩

/-- `Vector2.length_squared()`. -/
def lengthSq (v : ℝ × ℝ) : ℝ := v.1 * v.1 + v.2 * v.2

/-- `Vector2.length()`. -/
noncomputable def vlen (v : ℝ × ℝ) : ℝ := Real.sqrt (v.1 ^ 2 + v.2 ^ 2)

/-- Scalar multiple of a 2-vector. -/
def vscale (v : ℝ × ℝ) (c : ℝ) : ℝ × ℝ := (v.1 * c, v.2 * c)

/-- `Vector2.normalize()`: divide by the length (source code only calls
this on vectors of positive length). -/
noncomputable def vnormalize (v : ℝ × ℝ) : ℝ × ℝ :=
  (v.1 / vlen v, v.2 / vlen v)

/-- `Vector2.scale_to_length(L)`: rescale keeping the direction. -/
noncomputable def scaleToLength (v : ℝ × ℝ) (L : ℝ) : ℝ × ℝ :=
  vscale (vnormalize v) L

/-- Pixel mask: the set (list) of opaque pixel coordinates, relative to
the owning rect's top-left corner. -/
abbrev Mask := List (ℤ × ℤ)

/-- `mask1.overlap(mask2, off)` where `off` is the offset of the second
rect's top-left from the first's: some pixel of `m1` coincides with a
pixel of `m2`. -/
def maskOverlap (m1 m2 : Mask) (off : ℤ × ℤ) : Bool :=
  m1.any (fun p => decide ((p.1 - off.1, p.2 - off.2) ∈ m2))

/-- `pygame.sprite.collide_mask(a, b)` viewed as a Bool: overlap of the
two masks at offset `b.rect.topleft - a.rect.topleft`. -/
def collideMask (r1 : Rect) (m1 : Mask) (r2 : Rect) (m2 : Mask) : Bool :=
  maskOverlap m1 m2 (r2.left - r1.left, r2.top - r1.top)

/-- `Rect.colliderect` (zero-area rects never collide). -/
def collideRect (a b : Rect) : Bool :=
  decide (a.left < b.left + b.w) && decide (b.left < a.left + a.w) &&
  decide (a.top < b.top + b.h) && decide (b.top < a.top + a.h)

/-- An image as far as the game logic observes it: its size and the
collision mask derived from it (`pygame.mask.from_surface`). -/
structure Frame where
  w : ℤ
  h : ℤ
  mask : Mask
deriving DecidableEq

/-- External asset data: `rot i` models
`rotozoom(meteor_surf, i * ROT_STEP_DEG, 1)` together with its mask
(a pure function of the bucket index `i`); `eframes` models the 21
`explosion_frames`; the remaining fields are the player and laser
surface sizes and the player mask. -/
structure Assets where
  rot : ℕ → Frame
  eframes : List Frame
  pw : ℤ
  ph : ℤ
  pmask : Mask
  lw : ℤ
  lh : ℤ

/-- Held-key state delivered by `pygame.key.get_pressed()`. -/
structure Keys where
  right : Bool
  left : Bool
  down : Bool
  up : Bool
  space : Bool
deriving DecidableEq

/-- Player sprite state (main.py lines 73-87): speed 300, cooldown
400 ms and boost speed -1400 are fixed constants of the class. -/
structure Player where
  rect : Rect
  mask : Mask
  direction : ℝ × ℝ
  can_shoot : Bool
  laser_shoot_time : ℕ
  win_boosting : Bool

/-- `Player.__init__` (main.py lines 74-87): centered in the window.
`pw`, `ph`, `pmask` come from the player surface asset. -/
def Player.init (pw ph : ℤ) (pmask : Mask) : Player :=
  { rect := Rect.mkCenter pw ph (WINDOW_WIDTH / 2) (WINDOW_HEIGHT / 2)
    mask := pmask
    direction := (0, 0)
    can_shoot := true
    laser_shoot_time := 0
    win_boosting := false }

/-- Laser sprite (main.py lines 148-153): fixed speed 500. -/
structure Laser where
  rect : Rect

/-- `Laser.__init__`: rect placed with its midbottom at `pos`. -/
def Laser.init (lw lh : ℤ) (pos : ℤ × ℤ) : Laser :=
  { rect := Rect.mkMidbottom lw lh pos.1 pos.2 }

/-- `Laser.update` (main.py lines 155-158): move up, kill below 0.
`none` models `self.kill()`. -/
noncomputable def Laser.update (dt : ℝ) (l : Laser) : Option Laser :=
  let r := l.rect.setCentery (trunc ((l.rect.centery : ℝ) - 500 * dt))
  if r.bottom < 0 then none else some { l with rect := r }

/-- `Player._laser_timer` (main.py lines 89-92). -/
def laserTimer (now : ℕ) (p : Player) : Player :=
  if ¬ p.can_shoot then
    if now - p.laser_shoot_time ≥ 400 then { p with can_shoot := true } else p
  else p

/-- Lines 104-108 of `Player.update`: the WIN approach step toward the
center: `normalize(toCenter) * 500 * dt`, rescaled to the remaining
distance when longer than it. -/
noncomputable def winStep (dt : ℝ) (toCenter : ℝ × ℝ) : ℝ × ℝ :=
  let step := vscale (vnormalize toCenter) (500 * dt)
  if vlen step > vlen toCenter then scaleToLength step (vlen toCenter) else step

/-- `Player.update` (main.py lines 94-136). Returns the updated player
and the laser spawned this frame, if any (a spawned laser also plays
the laser sound). Only the WIN state has an early-out branch; every
other state (PLAYING and also GAME_OVER) runs the normal play
controls. -/
noncomputable def Player.update (gs : GState) (now : ℕ) (keys : Keys)
    (lw lh : ℤ) (dt : ℝ) (p : Player) : Player × Option Laser :=
  if gs = GState.win then
    if ¬ p.win_boosting then
      let target : ℝ × ℝ := ((WINDOW_WIDTH : ℝ) / 2, (WINDOW_HEIGHT : ℝ) / 2)
      let pos : ℝ × ℝ := ((p.rect.centerx : ℝ), (p.rect.centery : ℝ))
      let toCenter : ℝ × ℝ := (target.1 - pos.1, target.2 - pos.2)
      let dist := vlen toCenter
      if dist > 2 then
        let step := winStep dt toCenter
        let pos' : ℝ × ℝ := (pos.1 + step.1, pos.2 + step.2)
        ({ p with rect := (p.rect.setCenterx (trunc pos'.1)).setCentery (trunc pos'.2) },
         none)
      else
        ({ p with win_boosting := true }, none)
    else
      ({ p with rect := (p.rect.setCentery
          (trunc ((p.rect.centery : ℝ) + (-1400) * dt))) }, none)
  else
    let dirx : ℝ := (if keys.right then 1 else 0) - (if keys.left then 1 else 0)
    let diry : ℝ := (if keys.down then 1 else 0) - (if keys.up then 1 else 0)
    let d1 : ℝ × ℝ :=
      if lengthSq (dirx, diry) > 0 then vnormalize (dirx, diry) else (dirx, diry)
    let r1 := p.rect.setCenterx (trunc ((p.rect.centerx : ℝ) + d1.1 * 300 * dt))
    let r2 := r1.setCentery (trunc ((r1.centery : ℝ) + d1.2 * 300 * dt))
    let r3 := r2.clampIn screenRect
    if keys.space && p.can_shoot then
      (laserTimer now
        { p with rect := r3, direction := d1, can_shoot := false,
                 laser_shoot_time := now },
       some (Laser.init lw lh r3.midtop))
    else
      (laserTimer now { p with rect := r3, direction := d1 }, none)

/-- Quantized-angle bucket (main.py lines 59-60):
`int(angle_deg // ROT_STEP_DEG) % steps` with `steps = 360 // ROT_STEP_DEG`;
Python float floor-division and nonnegative `%` on ints. -/
noncomputable def quantIdx (angle : ℝ) : ℕ :=
  ((⌊angle / (ROT_STEP_DEG : ℝ)⌋) % (360 / ROT_STEP_DEG)).toNat

/-- State of the global `_METEOR_CACHE` (main.py line 55), together
with a ghost counter of how many rotation computations were performed. -/
structure CacheState where
  cache : ℕ → Option Frame
  computations : ℕ

/-- The initial empty `_METEOR_CACHE`. -/
def emptyCache : CacheState := ⟨fun _ => none, 0⟩

/-- `get_meteor_frame` (main.py lines 57-68): return the cached frame
for the quantized angle, computing (`rot`) and storing it on a miss. -/
noncomputable def get_meteor_frame (rot : ℕ → Frame) (st : CacheState)
    (angle : ℝ) : Frame × CacheState :=
  let idx := quantIdx angle
  match st.cache idx with
  | some f => (f, st)
  | none =>
      let f := rot idx
      (f, ⟨Function.update st.cache idx (some f), st.computations + 1⟩)

/-- Run a sequence of `get_meteor_frame` calls, keeping the cache state. -/
noncomputable def runCalls (rot : ℕ → Frame) (st : CacheState)
    (angles : List ℝ) : CacheState :=
  angles.foldl (fun s a => (get_meteor_frame rot s a).2) st

/-- Python float `%` with positive modulus: `x - n * ⌊x / n⌋`. -/
noncomputable def realMod (x n : ℝ) : ℝ := x - n * ⌊x / n⌋

/-- Meteor sprite state (main.py lines 161-181): fixed lifetime
2000 ms; `direction`, `speed` and `rotation_speed` are random draws. -/
structure Meteor where
  rect : Rect
  mask : Mask
  start_time : ℕ
  direction : ℝ × ℝ
  speed : ℕ
  rotation : ℝ
  rotation_speed : ℕ

/-- `Meteor.__init__` (main.py lines 162-181). `ux` is the
`uniform(-0.5, 0.5)` draw, `spd` the `randint(400, 500)` draw, `rotspd`
the `randint(40, 80)` draw. The initial frame comes from the rotation
cache at angle 0; by the cache invariant (proved below) the returned
pair is always `rot (quantIdx 0)`. -/
noncomputable def Meteor.init (rot : ℕ → Frame) (now : ℕ) (pos : ℤ × ℤ)
    (ux : ℝ) (spd rotspd : ℕ) : Meteor :=
  let f := rot (quantIdx 0)
  let d0 : ℝ × ℝ := (ux, 1)
  let d1 : ℝ × ℝ := if lengthSq d0 = 0 then (d0.1, 1) else d0
  { rect := Rect.mkCenter f.w f.h pos.1 pos.2
    mask := f.mask
    start_time := now
    direction := vnormalize d1
    speed := spd
    rotation := 0
    rotation_speed := rotspd }

/-- `Meteor.update` (main.py lines 183-203): frozen during WIN; else
move, self-destruct past the 2000 ms lifetime, else rotate via the
cache and recenter. `none` models `self.kill()`. -/
noncomputable def Meteor.update (rot : ℕ → Frame) (gs : GState) (now : ℕ)
    (dt : ℝ) (m : Meteor) : Option Meteor :=
  if gs = GState.win then some m
  else
    let r1 := m.rect.setCenterx
      (trunc ((m.rect.centerx : ℝ) + m.direction.1 * (m.speed : ℝ) * dt))
    let r2 := r1.setCentery
      (trunc ((r1.centery : ℝ) + m.direction.2 * (m.speed : ℝ) * dt))
    if now - m.start_time > 2000 then none
    else
      let rotn := realMod (m.rotation + (m.rotation_speed : ℝ) * dt) 360
      let f := rot (quantIdx rotn)
      some { m with
        rect := Rect.mkCenter f.w f.h r2.centerx r2.centery,
        mask := f.mask,
        rotation := rotn }

/-- Explosion sprite state (main.py lines 206-213): fixed animation
speed 20 frames/second. -/
structure Explosion where
  frames : List Frame
  frame_index : ℝ
  image : Frame
  rect : Rect

/-- `AnimatedExplosion.__init__` (main.py lines 207-213); `none` models
the `IndexError` Python would raise on an empty frame list (the real
`explosion_frames` has 21 frames). -/
def Explosion.init (frames : List Frame) (pos : ℤ × ℤ) : Option Explosion :=
  match frames with
  | [] => none
  | f :: _ =>
      some { frames := frames, frame_index := 0, image := f,
             rect := Rect.mkCenter f.w f.h pos.1 pos.2 }

/-- Result of `AnimatedExplosion.update`: still alive, killed, or a
Python `IndexError` on the frame-list access. -/
inductive UpdateResult
  | alive (e : Explosion)
  | killed
  | crash

/-- `AnimatedExplosion.update` (main.py lines 215-222): advance the
fractional frame index; if it is still below the frame count, show
`frames[int(frame_index)]` recentered, else self-destruct. -/
noncomputable def Explosion.update (dt : ℝ) (e : Explosion) : UpdateResult :=
  let fi := e.frame_index + 20 * dt
  if fi < (e.frames.length : ℝ) then
    match (if 0 ≤ trunc fi then e.frames.get? (trunc fi).toNat else none) with
    | some img =>
        .alive { e with
          frame_index := fi,
          image := img,
          rect := Rect.mkCenter img.w img.h e.rect.centerx e.rect.centery }
    | none => .crash
  else .killed

/-- The whole mutable global state of the main loop (main.py lines
17-25, 321-339): game state, running flag, score timebase, the cached
final score, and the sprite groups (per-kind lists in insertion
order). -/
structure World where
  gs : GState
  running : Bool
  game_start : ℕ
  final_cache : ℕ
  player : Player
  stars : List (ℤ × ℤ)
  meteors : List Meteor
  lasers : List Laser
  explosions : List Explosion

/-- Keys the end screens react to (main.py lines 358-362). -/
inductive Key
  | r
  | esc
  | other
deriving DecidableEq

/-- Events drained each frame (main.py lines 348-362). The meteor
timer event carries the random draws consumed when a meteor spawns. -/
inductive GEvent
  | quit
  | meteorTimer (x y : ℤ) (ux : ℝ) (spd rotspd : ℕ)
  | keydown (k : Key)

/-- `reset_game` (main.py lines 238-258): clear every group, reseed 20
stars (positions drawn from `newStars`), recreate the player, reset the
score timebase to `now` and return to PLAYING. -/
def reset_game (pw ph : ℤ) (pmask : Mask) (newStars : ℕ → ℤ × ℤ)
    (now : ℕ) (w : World) : World :=
  { w with
    stars := (List.range 20).map newStars,
    meteors := [],
    lasers := [],
    explosions := [],
    player := Player.init pw ph pmask,
    game_start := now,
    gs := GState.playing }

/-- One iteration of the event loop (main.py lines 348-362): quit
handling, the PLAYING-gated capped meteor spawn, and the end-screen
R / ESC handling. -/
noncomputable def handle_event (A : Assets) (newStars : ℕ → ℤ × ℤ)
    (now : ℕ) (w : World) (e : GEvent) : World :=
  let w1 := match e with
    | GEvent.quit => { w with running := false }
    | _ => w
  let w2 := match e with
    | GEvent.meteorTimer x y ux spd rotspd =>
        if w1.gs = GState.playing ∧ w1.meteors.length < MAX_METEORS then
          { w1 with meteors := w1.meteors ++ [Meteor.init A.rot now (x, y) ux spd rotspd] }
        else w1
    | _ => w1
  match e with
  | GEvent.keydown k =>
      if w2.gs = GState.game_over ∨ w2.gs = GState.win then
        let w3 := if k = Key.r then reset_game A.pw A.ph A.pmask newStars now w2 else w2
        if k = Key.esc then { w3 with running := false } else w3
      else w2
  | _ => w2

/-- The player-vs-meteor stage of `collisions` (main.py line 266):
`spritecollide(player, meteor_sprites, True, collide_mask)` returns the
list of mask-overlapping meteors and kills every one of them; the pair
is (hit meteors, surviving meteors). -/
def playerMeteorStep (p : Player) (ms : List Meteor) :
    List Meteor × List Meteor :=
  (ms.filter (fun m => collideMask p.rect p.mask m.rect m.mask),
   ms.filter (fun m => ! collideMask p.rect p.mask m.rect m.mask))

/-- The body of the laser loop in `collisions` (main.py lines 270-275)
for one laser: `spritecollide(laser, meteor_sprites, True)` kills every
rect-overlapping meteor; on a hit the laser dies, an explosion spawns
at the laser's midtop and the explosion sound plays (counted). The
accumulator is (meteors, surviving lasers, spawned explosions, sounds
played). -/
def laserStep (eframes : List Frame)
    (acc : List Meteor × List Laser × List Explosion × ℕ) (l : Laser) :
    List Meteor × List Laser × List Explosion × ℕ :=
  if (acc.1.filter (fun m => collideRect l.rect m.rect)).isEmpty then
    (acc.1, acc.2.1 ++ [l], acc.2.2.1, acc.2.2.2)
  else
    (acc.1.filter (fun m => ! collideRect l.rect m.rect),
     acc.2.1,
     acc.2.2.1 ++ (Explosion.init eframes l.rect.midtop).toList,
     acc.2.2.2 + 1)

/-- The full laser loop of `collisions` (main.py lines 270-275):
lasers processed in group order, each against the meteors remaining at
that point. -/
def lasersLoop (eframes : List Frame) (ms : List Meteor) (ls : List Laser) :
    List Meteor × List Laser × List Explosion × ℕ :=
  ls.foldl (laserStep eframes) (ms, [], [], 0)

/-- `collisions` (main.py lines 260-275): a no-op unless PLAYING; the
player-vs-meteor mask stage (transitioning to GAME_OVER on any hit,
`set_game_over`) runs first and its kills are visible to the laser
stage. Returns (state, meteors, lasers, spawned explosions, sounds). -/
def collisions (eframes : List Frame) (gs : GState) (p : Player)
    (ms : List Meteor) (ls : List Laser) :
    GState × List Meteor × List Laser × List Explosion × ℕ :=
  if gs ≠ GState.playing then (gs, ms, ls, [], 0)
  else
    ((if ((playerMeteorStep p ms).1).isEmpty then gs else GState.game_over),
     (lasersLoop eframes (playerMeteorStep p ms).2 ls).1,
     (lasersLoop eframes (playerMeteorStep p ms).2 ls).2.1,
     (lasersLoop eframes (playerMeteorStep p ms).2 ls).2.2.1,
     (lasersLoop eframes (playerMeteorStep p ms).2 ls).2.2.2)

/-- `get_score_value` (main.py lines 277-279):
`(pygame.time.get_ticks() - game_start_ms) // 100`. -/
def get_score_value (now game_start : ℕ) : ℕ := (now - game_start) / 100

/-- The win-check block of the main loop (main.py lines 368-374): only
from active play, cache the current score every PLAYING frame and call
`set_win` (which also resets the player's boost flag, main.py lines
232-236) when it reaches the threshold. -/
def win_check (now : ℕ) (w : World) : World :=
  if w.gs = GState.playing then
    if get_score_value now w.game_start ≥ SCORE_TO_WIN then
      { w with final_cache := get_score_value now w.game_start,
               gs := GState.win,
               player := { w.player with win_boosting := false } }
    else { w with final_cache := get_score_value now w.game_start }
  else w

/-- Where a score number is rendered. -/
inductive ReadoutPlace
  | topLeftBox
  | overlayCenter
deriving DecidableEq, Repr

/-- The score readouts drawn by the draw branch of the main loop
(main.py lines 380-389): `draw_score_top_left` renders the live
`get_score_value()` in every state; the GAME_OVER / WIN overlays
(`draw_death_screen` / `draw_win_screen`) additionally render
`final_score_cache`. -/
def drawScoreReadouts (now : ℕ) (w : World) : List (ReadoutPlace × ℕ) :=
  match w.gs with
  | GState.playing =>
      [(ReadoutPlace.topLeftBox, get_score_value now w.game_start)]
  | GState.game_over =>
      [(ReadoutPlace.topLeftBox, get_score_value now w.game_start),
       (ReadoutPlace.overlayCenter, w.final_cache)]
  | GState.win =>
      [(ReadoutPlace.topLeftBox, get_score_value now w.game_start),
       (ReadoutPlace.overlayCenter, w.final_cache)]

/-- Invariant tying a cache state to the set `S` of buckets computed so
far: exactly the buckets in `S` are cached (with the pure rotation
result), and the computation counter equals the size of `S`. -/
def cacheInv (rot : ℕ → Frame) (S : Finset ℕ) (st : CacheState) : Prop :=
  (∀ i, st.cache i = if i ∈ S then some (rot i) else none)
  ∧ st.computations = S.card

/- ====================  helper lemmas  ==================== -/

theorem trunc_intCast (n : ℤ) : trunc (n : ℝ) = n := by
  unfold trunc
  split <;> simp

theorem trunc_of_nonneg {x : ℝ} (h : 0 ≤ x) : trunc x = ⌊x⌋ := if_pos h

theorem vlen_nonneg (v : ℝ × ℝ) : 0 ≤ vlen v := Real.sqrt_nonneg _

theorem mkCenter_centerx (w h cx cy : ℤ) : (Rect.mkCenter w h cx cy).centerx = cx := by
  unfold Rect.mkCenter Rect.centerx
  dsimp only
  omega

theorem mkCenter_centery (w h cx cy : ℤ) : (Rect.mkCenter w h cx cy).centery = cy := by
  unfold Rect.mkCenter Rect.centery
  dsimp only
  omega

theorem setCenterx_centerx (r : Rect) (v : ℤ) : (r.setCenterx v).centerx = v := by
  unfold Rect.setCenterx Rect.centerx
  dsimp only
  omega

theorem setCentery_centery (r : Rect) (v : ℤ) : (r.setCentery v).centery = v := by
  unfold Rect.setCentery Rect.centery
  dsimp only
  omega

theorem sq_vlen (v : ℝ × ℝ) : vlen v ^ 2 = v.1 ^ 2 + v.2 ^ 2 :=
  Real.sq_sqrt (by positivity)

theorem vlen_vscale (v : ℝ × ℝ) (c : ℝ) : vlen (vscale v c) = |c| * vlen v := by
  unfold vlen vscale
  dsimp only
  rw [show (v.1 * c) ^ 2 + (v.2 * c) ^ 2 = c ^ 2 * (v.1 ^ 2 + v.2 ^ 2) by ring,
    Real.sqrt_mul (sq_nonneg c), Real.sqrt_sq_eq_abs]

theorem vlen_vnormalize_le_one (v : ℝ × ℝ) : vlen (vnormalize v) ≤ 1 := by
  rcases eq_or_ne (vlen v) 0 with h | h
  · simp only [vnormalize, h, div_zero]
    simp [vlen]
  · have hS : v.1 ^ 2 + v.2 ^ 2 ≠ 0 := by
      intro h0
      apply h
      unfold vlen
      rw [h0, Real.sqrt_zero]
    have : vlen (vnormalize v) = 1 := by
      unfold vnormalize vlen
      dsimp only
      rw [div_pow, div_pow, div_add_div_same,
        Real.sq_sqrt (by positivity : (0 : ℝ) ≤ v.1 ^ 2 + v.2 ^ 2),
        div_self hS, Real.sqrt_one]
    rw [this]

/- ====================  C10  ==================== -/

/-- C10: `AnimatedExplosion.update` is total and never indexes the frame
list out of range: for `dt ≥ 0` and a nonnegative frame index, the
frame index is non-decreasing; when the new index is below the frame
count the image becomes `frames[int(frame_index)]` with an in-range
index, and otherwise the explosion kills itself; no `IndexError` can
occur. -/
theorem C10_explosion_update_safe (dt : ℝ) (e : Explosion) (hdt : 0 ≤ dt)
    (hfi : 0 ≤ e.frame_index) :
    e.frame_index ≤ e.frame_index + 20 * dt
  ∧ (∀ e', Explosion.update dt e = UpdateResult.alive e' →
       e'.frame_index = e.frame_index + 20 * dt ∧ 0 ≤ e'.frame_index
       ∧ (trunc e'.frame_index).toNat < e.frames.length
       ∧ e.frames.get? (trunc e'.frame_index).toNat = some e'.image)
  ∧ Explosion.update dt e ≠ UpdateResult.crash
  ∧ ((e.frames.length : ℝ) ≤ e.frame_index + 20 * dt →
       Explosion.update dt e = UpdateResult.killed) := by
  have hfi' : 0 ≤ e.frame_index + 20 * dt := by positivity
  have hidx0 : 0 ≤ trunc (e.frame_index + 20 * dt) := by
    rw [trunc_of_nonneg hfi']
    exact Int.floor_nonneg.mpr hfi'
  have hfl0 : 0 ≤ ⌊e.frame_index + 20 * dt⌋ := Int.floor_nonneg.mpr hfi'
  refine ⟨by nlinarith, ?_, ?_, ?_⟩ <;>
    by_cases hlt : e.frame_index + 20 * dt < (e.frames.length : ℝ)
  · have hidxlt : (trunc (e.frame_index + 20 * dt)).toNat < e.frames.length := by
      rw [trunc_of_nonneg hfi']
      have h2 : ⌊e.frame_index + 20 * dt⌋ < (e.frames.length : ℤ) := by
        exact_mod_cast lt_of_le_of_lt (Int.floor_le _) hlt
      omega
    intro e' he'
    have hget := List.get?_eq_get hidxlt
    unfold Explosion.update at he'
    rw [if_pos hlt, if_pos hidx0, hget] at he'
    cases he'
    exact ⟨rfl, hfi', hidxlt, hget⟩
  · intro e' he'
    unfold Explosion.update at he'
    rw [if_neg hlt] at he'
    cases he'
  · have hidxlt : (trunc (e.frame_index + 20 * dt)).toNat < e.frames.length := by
      rw [trunc_of_nonneg hfi']
      have h2 : ⌊e.frame_index + 20 * dt⌋ < (e.frames.length : ℤ) := by
        exact_mod_cast lt_of_le_of_lt (Int.floor_le _) hlt
      omega
    have hget := List.get?_eq_get hidxlt
    intro hc
    unfold Explosion.update at hc
    rw [if_pos hlt, if_pos hidx0, hget] at hc
    cases hc
  · intro hc
    unfold Explosion.update at hc
    rw [if_neg hlt] at hc
    cases hc
  · intro hge
    exact absurd hlt (not_lt.mpr hge)
  · intro hge
    unfold Explosion.update
    rw [if_neg hlt]

/-- C10 witness: a concrete explosion updated with `dt = 0` does not
crash. -/
theorem C10_witness :
    (0 : ℝ) ≤ 0 ∧ (0 : ℝ) ≤ 0 ∧
    Explosion.update 0
      { frames := [⟨1, 1, []⟩], frame_index := 0, image := ⟨1, 1, []⟩,
        rect := ⟨0, 0, 1, 1⟩ } ≠ UpdateResult.crash :=
  ⟨le_refl 0, le_refl 0,
    (C10_explosion_update_safe 0
      { frames := [⟨1, 1, []⟩], frame_index := 0, image := ⟨1, 1, []⟩,
        rect := ⟨0, 0, 1, 1⟩ } (le_refl 0) (le_refl 0)).2.2.1⟩

/- ====================  C5  ==================== -/

/-- C5 counterexample: during WIN, `Meteor.update` leaves a meteor whose
age (3000 ms) is far past its 2000 ms lifetime untouched in the
registry, refuting the claim that a meteor's age never exceeds its
lifetime while present, independent of everything but its age. -/
theorem C5_counterexample :
    Meteor.update (fun _ => ⟨2, 2, []⟩) GState.win 3000 0
      { rect := ⟨0, 0, 2, 2⟩, mask := [], start_time := 0, direction := (0, 0),
        speed := 400, rotation := 0, rotation_speed := 40 }
      = some
      { rect := ⟨0, 0, 2, 2⟩, mask := [], start_time := 0, direction := (0, 0),
        speed := 400, rotation := 0, rotation_speed := 40 }
    ∧ 2000 < 3000 - 0 := by
  constructor
  · unfold Meteor.update
    rw [if_pos rfl]
  · norm_num

/-- C5 (amended): in every state except WIN, `Meteor.update` kills the
meteor on the first update at which its age `now - start_time` exceeds
the fixed 2000 ms lifetime, so a meteor surviving an update in a
non-WIN state has age at most 2000 ms; during WIN meteors are frozen
and exempt. -/
theorem C5_meteor_lifetime (rot : ℕ → Frame) (gs : GState) (now : ℕ)
    (dt : ℝ) (m : Meteor) (hgs : gs ≠ GState.win) :
    (2000 < now - m.start_time → Meteor.update rot gs now dt m = none)
  ∧ (∀ m', Meteor.update rot gs now dt m = some m' →
       now - m.start_time ≤ 2000) := by
  constructor
  · intro hage
    unfold Meteor.update
    rw [if_neg hgs]
    simp only [if_pos hage]
  · intro m' hm'
    by_contra hgt
    push_neg at hgt
    unfold Meteor.update at hm'
    rw [if_neg hgs] at hm'
    simp only [if_pos hgt] at hm'
    exact Option.noConfusion hm'

/-- C5 witness: a concrete over-age meteor is killed by an update while
PLAYING. -/
theorem C5_witness :
    GState.playing ≠ GState.win ∧ 2000 < 3000 - 0 ∧
    Meteor.update (fun _ => ⟨2, 2, []⟩) GState.playing 3000 0
      { rect := ⟨0, 0, 2, 2⟩, mask := [], start_time := 0, direction := (0, 0),
        speed := 400, rotation := 0, rotation_speed := 40 } = none :=
  ⟨by decide, by norm_num,
    (C5_meteor_lifetime (fun _ => ⟨2, 2, []⟩) GState.playing 3000 0
      { rect := ⟨0, 0, 2, 2⟩, mask := [], start_time := 0, direction := (0, 0),
        speed := 400, rotation := 0, rotation_speed := 40 }
      (by decide)).1 (by norm_num)⟩

/- ====================  C2  ==================== -/

/-- C2: the claim that every score readout on an end screen shows the
frame-frozen final-score snapshot fails: with the game over since score
100 and the clock now at 40000 ms, the draw branch still renders the
live recomputation 400 in the top-left box next to the frozen 100 in
the overlay. -/
theorem C2_topleft_live_on_end_screen :
    drawScoreReadouts 40000
      { gs := GState.game_over, running := true, game_start := 0,
        final_cache := 100, player := Player.init 10 10 [], stars := [],
        meteors := [], lasers := [], explosions := [] }
      = [(ReadoutPlace.topLeftBox, 400), (ReadoutPlace.overlayCenter, 100)]
    ∧ (400 : ℕ) ≠ 100 := by
  constructor
  · rfl
  · decide

/- ====================  C6  ==================== -/

/-- C6: the score is `(now - game_start) / 100` on millisecond ticks;
on a PLAYING frame the win check caches the score and transitions to
WIN exactly when it reaches `SCORE_TO_WIN = 300`; once in WIN the win
check never fires again (exactly once), and the meteor-spawn event is
ignored entirely outside PLAYING, so no meteor spawns after the
transition until a reset. -/
theorem C6_score_win_transition (A : Assets) (newStars : ℕ → ℤ × ℤ) :
    (∀ now start : ℕ, get_score_value now start = (now - start) / 100)
  ∧ (∀ (now : ℕ) (w : World), w.gs = GState.playing →
       (win_check now w).final_cache = get_score_value now w.game_start
       ∧ ((win_check now w).gs = GState.win ↔
            SCORE_TO_WIN ≤ get_score_value now w.game_start))
  ∧ (∀ (now : ℕ) (w : World), w.gs = GState.win → win_check now w = w)
  ∧ (∀ (now : ℕ) (w : World) (x y : ℤ) (ux : ℝ) (spd rotspd : ℕ),
       w.gs = GState.win →
       handle_event A newStars now w (GEvent.meteorTimer x y ux spd rotspd) = w) := by
  refine ⟨fun now start => rfl, ?_, ?_, ?_⟩
  · intro now w hw
    unfold win_check
    rw [if_pos hw]
    by_cases hs : get_score_value now w.game_start ≥ SCORE_TO_WIN
    · rw [if_pos hs]
      exact ⟨rfl, ⟨fun _ => hs, fun _ => rfl⟩⟩
    · rw [if_neg hs]
      refine ⟨rfl, ⟨fun habs => ?_, fun habs => absurd habs hs⟩⟩
      have habs' : w.gs = GState.win := habs
      rw [hw] at habs'
      exact absurd habs' (by decide)
  · intro now w hw
    unfold win_check
    rw [if_neg (by rw [hw]; decide)]
  · intro now w x y ux spd rotspd hw
    simp only [handle_event]
    rw [if_neg (fun hc => absurd (hw.symm.trans hc.1) (by decide))]

/-- C6 witness: with the game started at tick 0 and the clock at 30000,
the score is 300 and a PLAYING world transitions to WIN; at WIN a
meteor-timer event leaves the world unchanged. -/
theorem C6_witness :
    (win_check 30000
      { gs := GState.playing, running := true, game_start := 0,
        final_cache := 0, player := Player.init 10 10 [], stars := [],
        meteors := [], lasers := [], explosions := [] }).gs = GState.win
    ∧ win_check 99
      { gs := GState.win, running := true, game_start := 0,
        final_cache := 7, player := Player.init 10 10 [], stars := [],
        meteors := [], lasers := [], explosions := [] }
      = { gs := GState.win, running := true, game_start := 0,
          final_cache := 7, player := Player.init 10 10 [], stars := [],
          meteors := [], lasers := [], explosions := [] } :=
  ⟨(((C6_score_win_transition ⟨fun _ => ⟨1, 1, []⟩, [], 1, 1, [], 1, 1⟩
      (fun _ => (0, 0))).2.1 30000 _ rfl).2).mpr (by decide),
   (C6_score_win_transition ⟨fun _ => ⟨1, 1, []⟩, [], 1, 1, [], 1, 1⟩
      (fun _ => (0, 0))).2.2.1 99 _ rfl⟩

/- ====================  C8  ==================== -/

/-- C8: the only state transitions in the program are PLAYING to
GAME_OVER (collision pass), PLAYING to WIN (win check), and
GAME_OVER / WIN back to PLAYING via the R-key reset in the event
handler; in particular no event changes the state out of PLAYING, the
collision pass and win check never fire outside PLAYING, and an end
state is never left except by reset (quit only clears the running
flag). -/
theorem C8_transition_shape (A : Assets) (newStars : ℕ → ℤ × ℤ) (now : ℕ) :
    (∀ (w : World) (e : GEvent),
       (handle_event A newStars now w e).gs ≠ w.gs →
       (w.gs = GState.game_over ∨ w.gs = GState.win)
       ∧ e = GEvent.keydown Key.r
       ∧ (handle_event A newStars now w e).gs = GState.playing)
  ∧ (∀ (ef : List Frame) (gs : GState) (p : Player) (ms : List Meteor)
       (ls : List Laser),
       (collisions ef gs p ms ls).1 ≠ gs →
       gs = GState.playing
       ∧ (collisions ef gs p ms ls).1 = GState.game_over)
  ∧ (∀ w : World, (win_check now w).gs ≠ w.gs →
       w.gs = GState.playing ∧ (win_check now w).gs = GState.win) := by
  refine ⟨?_, ?_, ?_⟩
  · intro w e h
    cases e with
    | quit => exact absurd rfl h
    | meteorTimer x y ux spd rotspd =>
        exfalso
        apply h
        simp only [handle_event]
        split <;> rfl
    | keydown k =>
        simp only [handle_event] at h ⊢
        by_cases hend : w.gs = GState.game_over ∨ w.gs = GState.win
        · rw [if_pos hend] at h ⊢
          cases k with
          | r =>
              refine ⟨hend, rfl, ?_⟩
              simp [reset_game]
          | esc =>
              exfalso
              apply h
              simp
          | other =>
              exfalso
              apply h
              simp
        · rw [if_neg hend] at h
          exact absurd rfl h
  · intro ef gs p ms ls h
    unfold collisions at h ⊢
    by_cases hp : gs = GState.playing
    · subst hp
      rw [if_neg (by decide)] at h ⊢
      refine ⟨rfl, ?_⟩
      by_cases hhit : ((playerMeteorStep p ms).1).isEmpty
      · exfalso
        apply h
        simp only [if_pos hhit]
      · simp only [if_neg hhit]
    · rw [if_pos hp] at h
      exact absurd rfl h
  · intro w h
    unfold win_check at h ⊢
    by_cases hp : w.gs = GState.playing
    · rw [if_pos hp] at h ⊢
      by_cases hs : get_score_value now w.game_start ≥ SCORE_TO_WIN
      · rw [if_pos hs]
        exact ⟨hp, rfl⟩
      · exfalso
        apply h
        rw [if_neg hs]
    · rw [if_neg hp] at h
      exact absurd rfl h

/-- C8 witness: pressing R on a concrete GAME_OVER world changes the
state, and the change is the reset transition back to PLAYING. -/
theorem C8_witness :
    (handle_event ⟨fun _ => ⟨1, 1, []⟩, [], 1, 1, [], 1, 1⟩ (fun _ => (0, 0)) 5
      { gs := GState.game_over, running := true, game_start := 0,
        final_cache := 3, player := Player.init 10 10 [], stars := [],
        meteors := [], lasers := [], explosions := [] }
      (GEvent.keydown Key.r)).gs = GState.playing :=
  ((C8_transition_shape ⟨fun _ => ⟨1, 1, []⟩, [], 1, 1, [], 1, 1⟩
      (fun _ => (0, 0)) 5).1
    { gs := GState.game_over, running := true, game_start := 0,
      final_cache := 3, player := Player.init 10 10 [], stars := [],
      meteors := [], lasers := [], explosions := [] }
    (GEvent.keydown Key.r)
    (by unfold handle_event reset_game; decide)).2.2

/- ====================  C7  ==================== -/

theorem get_frame_fst (rot : ℕ → Frame) (S : Finset ℕ) (st : CacheState)
    (a : ℝ) (h : cacheInv rot S st) :
    (get_meteor_frame rot st a).1 = rot (quantIdx a) := by
  obtain ⟨hc, _⟩ := h
  simp only [get_meteor_frame]
  rw [hc (quantIdx a)]
  by_cases hm : quantIdx a ∈ S
  · rw [if_pos hm]
  · rw [if_neg hm]

theorem get_frame_snd_inv (rot : ℕ → Frame) (S : Finset ℕ) (st : CacheState)
    (a : ℝ) (h : cacheInv rot S st) :
    cacheInv rot (insert (quantIdx a) S) (get_meteor_frame rot st a).2 := by
  obtain ⟨hc, hn⟩ := h
  by_cases hm : quantIdx a ∈ S
  · have hS : insert (quantIdx a) S = S := Finset.insert_eq_self.mpr hm
    have hstep : get_meteor_frame rot st a = (rot (quantIdx a), st) := by
      simp only [get_meteor_frame]
      rw [hc (quantIdx a), if_pos hm]
    rw [hS, hstep]
    exact ⟨hc, hn⟩
  · have hstep : get_meteor_frame rot st a
        = (rot (quantIdx a),
           ⟨Function.update st.cache (quantIdx a) (some (rot (quantIdx a))),
            st.computations + 1⟩) := by
      simp only [get_meteor_frame]
      rw [hc (quantIdx a), if_neg hm]
    rw [hstep]
    constructor
    · intro i
      by_cases hi : i = quantIdx a
      · subst hi
        show Function.update st.cache (quantIdx a) (some (rot (quantIdx a)))
          (quantIdx a) = _
        rw [Function.update_same, if_pos (Finset.mem_insert_self _ _)]
      · show Function.update st.cache (quantIdx a) (some (rot (quantIdx a))) i = _
        rw [Function.update_noteq hi, hc i]
        by_cases hiS : i ∈ S
        · rw [if_pos hiS, if_pos (Finset.mem_insert_of_mem hiS)]
        · rw [if_neg hiS, if_neg (by simp [Finset.mem_insert, hi, hiS])]
    · show st.computations + 1 = _
      rw [hn, Finset.card_insert_of_not_mem hm]

theorem runCalls_inv (rot : ℕ → Frame) (angles : List ℝ) :
    ∀ (S : Finset ℕ) (st : CacheState), cacheInv rot S st →
    cacheInv rot (S ∪ (angles.map quantIdx).toFinset) (runCalls rot st angles) := by
  induction angles with
  | nil =>
      intro S st h
      simpa [runCalls] using h
  | cons a as ih =>
      intro S st h
      have h2 := ih _ _ (get_frame_snd_inv rot S st a h)
      have hset : S ∪ ((a :: as).map quantIdx).toFinset
          = insert (quantIdx a) S ∪ (as.map quantIdx).toFinset := by
        simp [List.map_cons, List.toFinset_cons, Finset.insert_union,
          Finset.union_insert]
      rw [hset]
      exact h2

theorem emptyCache_inv (rot : ℕ → Frame) : cacheInv rot ∅ emptyCache := by
  constructor
  · intro i
    simp [emptyCache]
  · simp [emptyCache]

/-- C7: `get_meteor_frame` is idempotent — with any reachable cache
state, two calls whose angles fall in the same 5-degree bucket return
the same cached pair (always the pure rotation of that bucket); the
number of rotation computations after any call sequence equals the
number of distinct buckets requested and never exceeds 72; and the key
space is bounded (every key is a bucket below 72) and collision-free —
the cache holds exactly one entry per requested bucket, with the value
belonging to that bucket. -/
theorem C7_rotation_cache (rot : ℕ → Frame) :
    (∀ a : ℝ, quantIdx a < 72)
  ∧ (∀ (angles : List ℝ) (a b : ℝ), quantIdx a = quantIdx b →
       (get_meteor_frame rot (runCalls rot emptyCache angles) a).1
         = (get_meteor_frame rot (runCalls rot emptyCache angles) b).1)
  ∧ (∀ angles : List ℝ,
       (runCalls rot emptyCache angles).computations
         = ((angles.map quantIdx).toFinset).card
       ∧ (runCalls rot emptyCache angles).computations ≤ 72)
  ∧ (∀ (angles : List ℝ) (i : ℕ),
       (runCalls rot emptyCache angles).cache i
         = if i ∈ (angles.map quantIdx).toFinset then some (rot i) else none) := by
  have hq : ∀ a : ℝ, quantIdx a < 72 := by
    intro a
    unfold quantIdx
    rw [show (360 : ℤ) / ROT_STEP_DEG = 72 by norm_num [ROT_STEP_DEG]]
    omega
  have hinv : ∀ angles : List ℝ,
      cacheInv rot ((angles.map quantIdx).toFinset)
        (runCalls rot emptyCache angles) := by
    intro angles
    have h := runCalls_inv rot angles ∅ emptyCache (emptyCache_inv rot)
    simpa using h
  refine ⟨hq, ?_, ?_, ?_⟩
  · intro angles a b hab
    rw [get_frame_fst rot _ _ a (hinv angles),
      get_frame_fst rot _ _ b (hinv angles), hab]
  · intro angles
    obtain ⟨hc, hn⟩ := hinv angles
    refine ⟨hn, ?_⟩
    rw [hn]
    have hsub : (angles.map quantIdx).toFinset ⊆ Finset.range 72 := by
      intro i hi
      rw [Finset.mem_range]
      rw [List.mem_toFinset] at hi
      obtain ⟨a, _, rfl⟩ := List.mem_map.mp hi
      exact hq a
    calc ((angles.map quantIdx).toFinset).card
        ≤ (Finset.range 72).card := Finset.card_le_card hsub
      _ = 72 := Finset.card_range 72
  · intro angles i
    exact (hinv angles).1 i

/-- C7 witness: the angles 1 and 3 fall in the same bucket and the
cache returns the identical pair for both. -/
theorem C7_witness :
    quantIdx (1 : ℝ) = quantIdx (3 : ℝ)
    ∧ (get_meteor_frame (fun i => ⟨(i : ℤ), (i : ℤ), []⟩)
        (runCalls (fun i => ⟨(i : ℤ), (i : ℤ), []⟩) emptyCache []) 1).1
      = (get_meteor_frame (fun i => ⟨(i : ℤ), (i : ℤ), []⟩)
        (runCalls (fun i => ⟨(i : ℤ), (i : ℤ), []⟩) emptyCache []) 3).1 := by
  have hq : quantIdx (1 : ℝ) = quantIdx (3 : ℝ) := by
    unfold quantIdx
    norm_num [ROT_STEP_DEG]
  exact ⟨hq, (C7_rotation_cache (fun i => ⟨(i : ℤ), (i : ℤ), []⟩)).2.1 [] 1 3 hq⟩

/- ====================  C3  ==================== -/

/-- C3 counterexample: when the player's mask overlaps two meteors in
the same collision pass, `spritecollide(..., dokill=True, collide_mask)`
removes both of them, not "exactly the one overlapping meteor": with
two overlapping meteors present, the surviving list is empty and the
hit list has length 2. -/
theorem C3_counterexample :
    collideMask (⟨0, 0, 4, 4⟩ : Rect) [(0, 0)] (⟨0, 0, 4, 4⟩ : Rect) [(0, 0)]
      = true
    ∧ (playerMeteorStep
        { rect := ⟨0, 0, 4, 4⟩, mask := [(0, 0)], direction := (0, 0),
          can_shoot := true, laser_shoot_time := 0, win_boosting := false }
        [{ rect := ⟨0, 0, 4, 4⟩, mask := [(0, 0)], start_time := 0,
           direction := (0, 0), speed := 400, rotation := 0, rotation_speed := 40 },
         { rect := ⟨0, 0, 4, 4⟩, mask := [(0, 0)], start_time := 0,
           direction := (0, 0), speed := 450, rotation := 0, rotation_speed := 40 }]).1.length
      = 2
    ∧ (collisions [] GState.playing
        { rect := ⟨0, 0, 4, 4⟩, mask := [(0, 0)], direction := (0, 0),
          can_shoot := true, laser_shoot_time := 0, win_boosting := false }
        [{ rect := ⟨0, 0, 4, 4⟩, mask := [(0, 0)], start_time := 0,
           direction := (0, 0), speed := 400, rotation := 0, rotation_speed := 40 },
         { rect := ⟨0, 0, 4, 4⟩, mask := [(0, 0)], start_time := 0,
           direction := (0, 0), speed := 450, rotation := 0, rotation_speed := 40 }]
        []).2.1 = [] :=
  ⟨rfl, rfl, rfl⟩

/-- C3 (amended): if at least one meteor's mask overlaps the player's
during a PLAYING collision pass, exactly one transition to GAME_OVER
occurs, and the player-vs-meteor step removes exactly the set of
overlapping meteors — every overlapping meteor is removed (not only
one) and every non-overlapping meteor survives the step. -/
theorem C3_player_collision (ef : List Frame) (p : Player) (ms : List Meteor)
    (ls : List Laser)
    (h : ∃ m ∈ ms, collideMask p.rect p.mask m.rect m.mask = true) :
    (collisions ef GState.playing p ms ls).1 = GState.game_over
  ∧ (∀ m ∈ ms, collideMask p.rect p.mask m.rect m.mask = false →
       m ∈ (playerMeteorStep p ms).2)
  ∧ (∀ m ∈ (playerMeteorStep p ms).2,
       collideMask p.rect p.mask m.rect m.mask = false)
  ∧ (∀ m ∈ ms, collideMask p.rect p.mask m.rect m.mask = true →
       m ∈ (playerMeteorStep p ms).1)
  ∧ (∀ m ∈ (playerMeteorStep p ms).1,
       collideMask p.rect p.mask m.rect m.mask = true) := by
  obtain ⟨m0, hm0, hcol⟩ := h
  have hmem : m0 ∈ (playerMeteorStep p ms).1 :=
    List.mem_filter.mpr ⟨hm0, hcol⟩
  have hnil : (playerMeteorStep p ms).1 ≠ [] := by
    intro hn
    rw [hn] at hmem
    cases hmem
  have hne : ¬ (((playerMeteorStep p ms).1).isEmpty = true) := by
    rw [List.isEmpty_iff]
    exact hnil
  refine ⟨?_, ?_, ?_, ?_, ?_⟩
  · unfold collisions
    rw [if_neg (by decide : ¬ (GState.playing ≠ GState.playing))]
    dsimp only
    rw [if_neg hne]
  · intro m hm hf
    refine List.mem_filter.mpr ⟨hm, ?_⟩
    rw [hf]
    rfl
  · intro m hm
    have := (List.mem_filter.mp hm).2
    cases hcb : collideMask p.rect p.mask m.rect m.mask
    · rfl
    · rw [hcb] at this
      cases this
  · intro m hm hc
    exact List.mem_filter.mpr ⟨hm, hc⟩
  · intro m hm
    exact (List.mem_filter.mp hm).2

/-- C3 witness: a single overlapping meteor triggers the GAME_OVER
transition. -/
theorem C3_witness :
    (collisions [] GState.playing
      { rect := ⟨0, 0, 4, 4⟩, mask := [(0, 0)], direction := (0, 0),
        can_shoot := true, laser_shoot_time := 0, win_boosting := false }
      [{ rect := ⟨0, 0, 4, 4⟩, mask := [(0, 0)], start_time := 0,
         direction := (0, 0), speed := 400, rotation := 0, rotation_speed := 40 }]
      []).1 = GState.game_over :=
  (C3_player_collision []
    { rect := ⟨0, 0, 4, 4⟩, mask := [(0, 0)], direction := (0, 0),
      can_shoot := true, laser_shoot_time := 0, win_boosting := false }
    [{ rect := ⟨0, 0, 4, 4⟩, mask := [(0, 0)], start_time := 0,
       direction := (0, 0), speed := 400, rotation := 0, rotation_speed := 40 }]
    []
    ⟨{ rect := ⟨0, 0, 4, 4⟩, mask := [(0, 0)], start_time := 0,
       direction := (0, 0), speed := 400, rotation := 0, rotation_speed := 40 },
     by simp, rfl⟩).1

/- ====================  C4  ==================== -/

/-- C4 counterexample: one laser whose rect overlaps two meteors kills
both of them in its `spritecollide(..., dokill=True)` call, refuting
the claim that only "the first overlapping meteor" is destroyed and
the others survive that laser's hit: after the loop no meteor
survives. -/
theorem C4_counterexample :
    collideRect (⟨0, 0, 4, 8⟩ : Rect) (⟨1, 1, 2, 2⟩ : Rect) = true
    ∧ collideRect (⟨0, 0, 4, 8⟩ : Rect) (⟨2, 2, 2, 2⟩ : Rect) = true
    ∧ (lasersLoop [⟨2, 2, []⟩]
        [{ rect := ⟨1, 1, 2, 2⟩, mask := [], start_time := 0,
           direction := (0, 0), speed := 400, rotation := 0, rotation_speed := 40 },
         { rect := ⟨2, 2, 2, 2⟩, mask := [], start_time := 0,
           direction := (0, 0), speed := 450, rotation := 0, rotation_speed := 40 }]
        [{ rect := ⟨0, 0, 4, 8⟩ }]).1 = [] :=
  ⟨rfl, rfl, rfl⟩

/-- C4 (amended): in the laser loop, a laser whose rect overlaps at
least one of the current meteors is destroyed together with every
meteor overlapping it (not only the first); exactly one explosion is
appended, centered at the laser's top-center, and exactly one sound is
counted; a laser overlapping no meteor survives untouched; and lasers
are resolved sequentially, each against the meteors remaining after
the previous lasers' kills. -/
theorem C4_laser_collision (ef : List Frame) (hef : ef ≠ [])
    (ms : List Meteor) (kept : List Laser) (ex : List Explosion) (n : ℕ)
    (l : Laser) :
    ((∃ m ∈ ms, collideRect l.rect m.rect = true) →
       (laserStep ef (ms, kept, ex, n) l).2.1 = kept
       ∧ (∀ m ∈ ms, collideRect l.rect m.rect = true →
            m ∉ (laserStep ef (ms, kept, ex, n) l).1)
       ∧ (∀ m ∈ ms, collideRect l.rect m.rect = false →
            m ∈ (laserStep ef (ms, kept, ex, n) l).1)
       ∧ (∃ e : Explosion,
            (laserStep ef (ms, kept, ex, n) l).2.2.1 = ex ++ [e]
            ∧ e.rect.centerx = (l.rect.midtop).1
            ∧ e.rect.centery = (l.rect.midtop).2)
       ∧ (laserStep ef (ms, kept, ex, n) l).2.2.2 = n + 1)
  ∧ ((∀ m ∈ ms, collideRect l.rect m.rect = false) →
       laserStep ef (ms, kept, ex, n) l = (ms, kept ++ [l], ex, n))
  ∧ (∀ ls : List Laser,
       lasersLoop ef ms (l :: ls)
         = ls.foldl (laserStep ef) (laserStep ef (ms, [], [], 0) l)) := by
  refine ⟨?_, ?_, fun ls => rfl⟩
  · rintro ⟨m0, hm0, hcol⟩
    have hmem : m0 ∈ ms.filter (fun m => collideRect l.rect m.rect) :=
      List.mem_filter.mpr ⟨hm0, hcol⟩
    have hne : ¬ ((ms.filter (fun m => collideRect l.rect m.rect)).isEmpty = true) := by
      rw [List.isEmpty_iff]
      intro hn
      rw [hn] at hmem
      cases hmem
    have hstep : laserStep ef (ms, kept, ex, n) l
        = (ms.filter (fun m => ! collideRect l.rect m.rect), kept,
           ex ++ (Explosion.init ef l.rect.midtop).toList, n + 1) := by
      unfold laserStep
      rw [if_neg hne]
    rw [hstep]
    refine ⟨rfl, ?_, ?_, ?_, rfl⟩
    · intro m hm hc hin
      have := (List.mem_filter.mp hin).2
      rw [hc] at this
      cases this
    · intro m hm hc
      refine List.mem_filter.mpr ⟨hm, ?_⟩
      rw [hc]
      rfl
    · cases ef with
      | nil => exact absurd rfl hef
      | cons f fs =>
          refine ⟨{ frames := f :: fs, frame_index := 0, image := f,
                    rect := Rect.mkCenter f.w f.h (l.rect.midtop).1 (l.rect.midtop).2 },
                  rfl, ?_, ?_⟩
          · exact mkCenter_centerx _ _ _ _
          · exact mkCenter_centery _ _ _ _
  · intro hall
    have hnil : ms.filter (fun m => collideRect l.rect m.rect) = [] := by
      rw [List.filter_eq_nil_iff]
      intro m hm
      rw [hall m hm]
      exact fun hc => Bool.noConfusion hc
    unfold laserStep
    rw [hnil]
    rfl

/-- C4 witness: a concrete laser hitting one meteor bumps the sound
counter and spawns one explosion at its top-center. -/
theorem C4_witness :
    (laserStep [⟨2, 2, []⟩]
      ([{ rect := ⟨1, 1, 2, 2⟩, mask := [], start_time := 0,
          direction := (0, 0), speed := 400, rotation := 0, rotation_speed := 40 }],
       [], [], 0)
      { rect := ⟨0, 0, 4, 8⟩ }).2.2.2 = 0 + 1 :=
  ((C4_laser_collision [⟨2, 2, []⟩] (by simp)
    [{ rect := ⟨1, 1, 2, 2⟩, mask := [], start_time := 0,
       direction := (0, 0), speed := 400, rotation := 0, rotation_speed := 40 }]
    [] [] 0 { rect := ⟨0, 0, 4, 8⟩ }).1
    ⟨{ rect := ⟨1, 1, 2, 2⟩, mask := [], start_time := 0,
       direction := (0, 0), speed := 400, rotation := 0, rotation_speed := 40 },
     by simp, rfl⟩).2.2.2.2

/- ====================  C9  ==================== -/

theorem winStep_no_overshoot (dt : ℝ) (v : ℝ × ℝ) (_hdt : 0 ≤ dt) :
    vlen (winStep dt v) ≤ vlen v := by
  unfold winStep
  by_cases hlen : vlen (vscale (vnormalize v) (500 * dt)) > vlen v
  · rw [if_pos hlen]
    unfold scaleToLength
    rw [vlen_vscale]
    calc |vlen v| * vlen (vnormalize (vscale (vnormalize v) (500 * dt)))
        ≤ |vlen v| * 1 :=
          mul_le_mul_of_nonneg_left (vlen_vnormalize_le_one _) (abs_nonneg _)
      _ = vlen v := by rw [mul_one, abs_of_nonneg (vlen_nonneg v)]
  · rw [if_neg hlen]
    exact not_lt.mp hlen

/-- C9: during WIN the player's update ignores the key state entirely
and never spawns a laser; while not yet boosting, the approach step
toward the screen center is distance-clamped — its length never exceeds
the remaining distance to the center, so the ship never overshoots —
and once the remaining distance is within the 2-pixel epsilon the
update switches the boost flag on (without moving); once boosting, the
flag stays on and the ship moves straight up at the constant boost
velocity of -1400 px/s. -/
theorem C9_win_phase (now : ℕ) (keys keys' : Keys) (lw lh : ℤ) (dt : ℝ)
    (p : Player) :
    Player.update GState.win now keys lw lh dt p
      = Player.update GState.win now keys' lw lh dt p
  ∧ (Player.update GState.win now keys lw lh dt p).2 = none
  ∧ (∀ v : ℝ × ℝ, 0 ≤ dt → vlen (winStep dt v) ≤ vlen v)
  ∧ (p.win_boosting = false →
       vlen ((WINDOW_WIDTH : ℝ) / 2 - (p.rect.centerx : ℝ),
             (WINDOW_HEIGHT : ℝ) / 2 - (p.rect.centery : ℝ)) ≤ 2 →
       (Player.update GState.win now keys lw lh dt p).1.win_boosting = true
       ∧ (Player.update GState.win now keys lw lh dt p).1.rect = p.rect)
  ∧ (p.win_boosting = true →
       (Player.update GState.win now keys lw lh dt p).1.win_boosting = true
       ∧ (Player.update GState.win now keys lw lh dt p).1.rect.centery
           = trunc ((p.rect.centery : ℝ) + (-1400) * dt)
       ∧ (Player.update GState.win now keys lw lh dt p).1.rect.left
           = p.rect.left) := by
  have hb : ∀ k : Keys, p.win_boosting = true →
      Player.update GState.win now k lw lh dt p
        = ({ p with rect := (p.rect.setCentery
              (trunc ((p.rect.centery : ℝ) + (-1400) * dt))) }, none) := by
    intro k hbt
    simp only [Player.update, if_true]
    rw [if_neg (not_not_intro hbt)]
  have hnear : ∀ k : Keys, p.win_boosting = false →
      ¬ (vlen ((WINDOW_WIDTH : ℝ) / 2 - (p.rect.centerx : ℝ),
           (WINDOW_HEIGHT : ℝ) / 2 - (p.rect.centery : ℝ)) > 2) →
      Player.update GState.win now k lw lh dt p
        = ({ p with win_boosting := true }, none) := by
    intro k hbf hd
    simp only [Player.update, if_true]
    rw [if_pos (by rw [hbf]; exact Bool.false_ne_true), if_neg hd]
  have hfar : ∀ k : Keys, p.win_boosting = false →
      (vlen ((WINDOW_WIDTH : ℝ) / 2 - (p.rect.centerx : ℝ),
         (WINDOW_HEIGHT : ℝ) / 2 - (p.rect.centery : ℝ)) > 2) →
      Player.update GState.win now k lw lh dt p
        = ({ p with rect := ((p.rect.setCenterx
              (trunc ((p.rect.centerx : ℝ)
                + (winStep dt ((WINDOW_WIDTH : ℝ) / 2 - (p.rect.centerx : ℝ),
                    (WINDOW_HEIGHT : ℝ) / 2 - (p.rect.centery : ℝ))).1))).setCentery
              (trunc ((p.rect.centery : ℝ)
                + (winStep dt ((WINDOW_WIDTH : ℝ) / 2 - (p.rect.centerx : ℝ),
                    (WINDOW_HEIGHT : ℝ) / 2 - (p.rect.centery : ℝ))).2))) },
           none) := by
    intro k hbf hd
    simp only [Player.update, if_true]
    rw [if_pos (by rw [hbf]; exact Bool.false_ne_true), if_pos hd]
  cases hb0 : p.win_boosting with
  | true =>
      refine ⟨by rw [hb keys hb0, hb keys' hb0], by rw [hb keys hb0],
        fun v hdt => winStep_no_overshoot dt v hdt, ?_, ?_⟩
      · intro hfalse
        cases hfalse
      · intro _
        rw [hb keys hb0]
        exact ⟨hb0, setCentery_centery _ _, rfl⟩
  | false =>
      by_cases hd : vlen ((WINDOW_WIDTH : ℝ) / 2 - (p.rect.centerx : ℝ),
          (WINDOW_HEIGHT : ℝ) / 2 - (p.rect.centery : ℝ)) > 2
      · refine ⟨by rw [hfar keys hb0 hd, hfar keys' hb0 hd],
          by rw [hfar keys hb0 hd],
          fun v hdt => winStep_no_overshoot dt v hdt, ?_, ?_⟩
        · intro _ hle
          exact absurd hle (not_le.mpr hd)
        · intro htrue
          cases htrue
      · refine ⟨by rw [hnear keys hb0 hd, hnear keys' hb0 hd],
          by rw [hnear keys hb0 hd],
          fun v hdt => winStep_no_overshoot dt v hdt, ?_, ?_⟩
        · intro _ _
          rw [hnear keys hb0 hd]
          exact ⟨rfl, rfl⟩
        · intro htrue
          cases htrue

/-- C9 witness: a concrete non-boosting player already at the screen
center switches to boosting, and a boosting player moves by the boost
velocity; the clamped step never exceeds a concrete remaining
distance. -/
theorem C9_witness :
    (Player.init 100 100 []).win_boosting = false
    ∧ vlen ((WINDOW_WIDTH : ℝ) / 2 - ((Player.init 100 100 []).rect.centerx : ℝ),
        (WINDOW_HEIGHT : ℝ) / 2 - ((Player.init 100 100 []).rect.centery : ℝ)) ≤ 2
    ∧ (Player.update GState.win 0 ⟨false, false, false, false, false⟩ 10 20 1
        (Player.init 100 100 [])).1.win_boosting = true
    ∧ (0 : ℝ) ≤ 1
    ∧ vlen (winStep 1 (0, -5)) ≤ vlen ((0 : ℝ), (-5 : ℝ)) := by
  have h1 : (Player.init 100 100 []).win_boosting = false := rfl
  have h2 : vlen ((WINDOW_WIDTH : ℝ) / 2 - ((Player.init 100 100 []).rect.centerx : ℝ),
      (WINDOW_HEIGHT : ℝ) / 2 - ((Player.init 100 100 []).rect.centery : ℝ)) ≤ 2 := by
    have hx : ((WINDOW_WIDTH : ℝ) / 2 - ((Player.init 100 100 []).rect.centerx : ℝ)) = 0 := by
      rw [show (Player.init 100 100 []).rect.centerx = 640 from rfl]
      norm_num [WINDOW_WIDTH]
    have hy : ((WINDOW_HEIGHT : ℝ) / 2 - ((Player.init 100 100 []).rect.centery : ℝ)) = 0 := by
      rw [show (Player.init 100 100 []).rect.centery = 360 from rfl]
      norm_num [WINDOW_HEIGHT]
    rw [hx, hy]
    unfold vlen
    norm_num
  refine ⟨h1, h2, ?_, by norm_num, ?_⟩
  · exact ((C9_win_phase 0 ⟨false, false, false, false, false⟩
      ⟨false, false, false, false, false⟩ 10 20 1 (Player.init 100 100 [])).2.2.2.1
      h1 h2).1
  · exact (C9_win_phase 0 ⟨false, false, false, false, false⟩
      ⟨false, false, false, false, false⟩ 10 20 1 (Player.init 100 100 [])).2.2.1
      (0, -5) (by norm_num)

/- ====================  C1  ==================== -/

/-- C1: the claim that the player is frozen during GAME_OVER fails on
the code: `Player.update` only early-outs for WIN, so during GAME_OVER
the normal play controls still run — with the right arrow held and
`dt = 0.1` s, a player centered at x = 640 moves to x = 670 in one
update while the state is GAME_OVER. -/
theorem C1_player_not_frozen_in_game_over :
    (Player.init 100 100 []).rect.centerx = 640
    ∧ (Player.update GState.game_over 1000 ⟨true, false, false, false, false⟩
        10 20 (1 / 10) (Player.init 100 100 [])).1.rect.centerx = 670
    ∧ (670 : ℤ) ≠ 640 := by
  have htr670 : trunc (670 : ℝ) = 670 := by
    rw [show (670 : ℝ) = ((670 : ℤ) : ℝ) by norm_num, trunc_intCast]
  have htr360 : trunc (360 : ℝ) = 360 := by
    rw [show (360 : ℝ) = ((360 : ℤ) : ℝ) by norm_num, trunc_intCast]
  refine ⟨rfl, ?_, by decide⟩
  norm_num [Player.update, Player.init, Rect.mkCenter, Rect.centerx, Rect.centery,
    Rect.setCenterx, Rect.setCentery, Rect.clampIn, clampAxis, screenRect,
    WINDOW_WIDTH, WINDOW_HEIGHT, lengthSq, vnormalize, vlen, laserTimer,
    Real.sqrt_one, htr670, htr360]
  rw [if_neg (show ¬ (GState.game_over = GState.win) by decide)]
  norm_num

end SpaceShooter
